import Mathlib

/-!
Verification of the startup supervisor in src/src-tauri/src/lib.rs.

The embedding models paths as lists of components (the root directory is the
empty list, and joining a component appends it), and the relevant outside
world — which paths exist on disk, what the system lookup command returns,
and whether the OS accepts a spawn — as an explicit record threaded through
the translated functions.  Each Rust function is translated clause by
clause; where a claim is about control flow ("the fallback is never
evaluated", "the locator is not invoked"), the translation additionally
returns an instrumentation flag recording whether that step was reached,
mirroring the exact order of checks in the source.
-/

/-- A filesystem path, as its list of components from the root.
The root directory is the empty list. -/
abbrev FsPath := List String

namespace FsPath

/-- PathBuf::join with a single component. -/
def join (p : FsPath) (c : String) : FsPath := p ++ [c]

/-- PathBuf::parent: none for the root, otherwise drop the last component. -/
def parent : FsPath → Option FsPath
  | [] => none
  | ps => some ps.dropLast

end FsPath

/-- The state of the outside world observed by the supervisor:
which paths exist as directories, which exist as plain files,
what the system lookup command (which node) returns, and whether the
operating system accepts the next spawn request (and with which pid). -/
structure World where
  dirs : List FsPath
  files : List FsPath
  /-- Result of running the system lookup command: none models the command
  itself failing to run; some (success, p) models it running with the given
  exit status and resolved path printed on standard output. -/
  whichNode : Option (Bool × FsPath)
  /-- some pid if the OS accepts the next spawn request, none if it rejects it. -/
  spawnPid : Option Nat

/-- Path::exists, against the modelled world. -/
def World.pathExists (w : World) (p : FsPath) : Prop :=
  p ∈ w.dirs ∨ p ∈ w.files

instance (w : World) (p : FsPath) : Decidable (w.pathExists p) := by
  unfold World.pathExists
  infer_instance

/-- The fixed probe order of well-known Node.js locations in
find_node_binary (lib.rs lines 41-45). -/
def possible_paths : List FsPath :=
  [["usr", "local", "bin", "node"],
   ["opt", "homebrew", "bin", "node"],
   ["usr", "bin", "node"]]

/-- The for loop of find_node_binary (lib.rs lines 47-53): return the first
path in the list that exists. -/
def probeFirst (w : World) : List FsPath → Option FsPath
  | [] => none
  | p :: rest => if w.pathExists p then some p else probeFirst w rest

/-- find_node_binary (lib.rs lines 39-69): probe the well-known locations in
order; if none exists, run the system lookup command, and if it succeeds and
the resolved path exists, return it; otherwise return none. -/
def find_node_binary (w : World) : Option FsPath :=
  match probeFirst w possible_paths with
  | some p => some p
  | none =>
      match w.whichNode with
      | some (success, p) =>
          if success then (if w.pathExists p then some p else none) else none
      | none => none

/-- The executable-relative block of find_server_dir (lib.rs lines 21-33):
derive the executable's directory, take its parent, join Resources (line 24)
and then server (line 26); probe that candidate for existence.  The boolean
records whether the candidate was actually probed.  There is no platform
condition anywhere in this block: the source carries no cfg attribute. -/
def exe_fallback (w : World) (exePath : Option FsPath) : Option FsPath × Bool :=
  match exePath with
  | some exe =>
      match exe.parent with
      | some appDir =>
          match appDir.parent.map (fun p => p.join "Resources") with
          | some resDir =>
              let serverDir := resDir.join "server"
              if w.pathExists serverDir then (some serverDir, true)
              else (none, true)
          | none => (none, false)
      | none => (none, false)
  | none => (none, false)

/-- find_server_dir (lib.rs lines 10-37), instrumented: the second component
of the result records whether the executable-relative fallback candidate was
probed for existence.  The first step checks the resource-directory
candidate (lines 12-18) and returns it on existence without reaching the
fallback block. -/
def find_server_dir (w : World) (resourceDir : Option FsPath)
    (exePath : Option FsPath) : Option FsPath × Bool :=
  match resourceDir with
  | some rd =>
      let serverDir := rd.join "server"
      if w.pathExists serverDir then (some serverDir, false)
      else exe_fallback w exePath
  | none => exe_fallback w exePath

/-- Configuration of a child standard stream in a spawn request. -/
inductive StdioCfg
  | piped
  | inheritedStream
  deriving DecidableEq, Repr

/-- The spawn request built by the Command builder chain
(lib.rs lines 84-90): program, arguments, working directory, environment
additions on top of the parent environment, and stream configurations. -/
structure SpawnRequest where
  program : FsPath
  args : List FsPath
  cwd : Option FsPath
  envAdditions : List (String × String)
  stdoutCfg : StdioCfg
  stderrCfg : StdioCfg
  deriving DecidableEq, Repr

/-- A handle to a spawned child process: its process identifier and the
request it was spawned from. -/
structure Child where
  id : Nat
  request : SpawnRequest
  deriving DecidableEq, Repr

/-- Command::spawn against the modelled world: on acceptance the OS creates a
process with the world's pid, faithful to the request; on rejection it
returns none (the source maps the error to None via ok()?). -/
def World.spawn (w : World) (req : SpawnRequest) : Option Child :=
  match w.spawnPid with
  | some pid => some { id := pid, request := req }
  | none => none

/-- start_next_server (lib.rs lines 71-100), instrumented: the second
component of the result records whether find_node_binary was invoked.
The entry-file check (line 76) precedes the locator call (line 81); the
spawn request is built exactly as in lines 84-91. -/
def start_next_server (w : World) (serverDir : FsPath) : Option Child × Bool :=
  let serverJs := serverDir.join "server.js"
  if ¬ w.pathExists serverJs then (none, false)
  else
    match find_node_binary w with
    | none => (none, true)
    | some nodePath =>
        let req : SpawnRequest :=
          { program := nodePath
            args := [serverJs]
            cwd := some serverDir
            envAdditions := [("PORT", "1234"), ("HOSTNAME", "localhost")]
            stdoutCfg := StdioCfg.piped
            stderrCfg := StdioCfg.piped }
        match w.spawn req with
        | some child => (some child, true)
        | none => (none, true)

/-- An OS-level action on a process that kill_server could issue. -/
inductive OsAction
  | kill (pid : Nat)
  | wait (pid : Nat)
  deriving DecidableEq, Repr

/-- The outcome of taking the registry's mutex: either the lock is poisoned,
or it is acquired and exposes the slot contents. -/
inductive LockResult
  | poisoned
  | acquired (slot : Option Child)
  deriving DecidableEq, Repr

/-- kill_server (lib.rs lines 102-110): under the lock, if a handle is
present, issue a hard kill with its pid (the result of kill is discarded);
the slot is not modified; a poisoned lock is silently ignored by the
if-let on the lock result.  Returns the slot state after the call and the
list of OS actions issued. -/
def kill_server : LockResult → LockResult × List OsAction
  | LockResult.poisoned => (LockResult.poisoned, [])
  | LockResult.acquired none => (LockResult.acquired none, [])
  | LockResult.acquired (some child) =>
      (LockResult.acquired (some child), [OsAction.kill child.id])

/-- A call the host makes into the supervisor from a lifecycle hook. -/
inductive HostCall
  | callKillServer
  | callSetup
  deriving DecidableEq, Repr

/-- The lifecycle hooks the run function registers on the framework builder
(lib.rs lines 112-156): plugins, the initial managed slot, a setup hook,
and optionally a teardown handler with the calls it makes. -/
structure AppBuilder where
  plugins : List String
  initialSlot : Option Child
  hasSetupHook : Bool
  /-- none when no exit or teardown handler is registered at all. -/
  onExitCalls : Option (List HostCall)
  deriving Repr

/-- The builder chain of run (lib.rs lines 114-155): three plugins, the slot
managed at None (line 123), a setup closure (lines 125-153), and no exit,
window-event or teardown handler anywhere in the chain. -/
def runBuilder : AppBuilder :=
  { plugins := ["shell", "process", "log"]
    initialSlot := none
    hasSetupHook := true
    onExitCalls := none }

/-- The calls the host makes on application shutdown: those of the
registered teardown handler, if any. -/
def shutdownCalls (b : AppBuilder) : List HostCall :=
  match b.onExitCalls with
  | some calls => calls
  | none => []

/-- The setup closure's effect on the registry slot (lib.rs lines 133-141):
if a server directory is found, the slot is overwritten with the result of
start_next_server; otherwise the slot keeps its previous contents. -/
def setup_slot (w : World) (resourceDir exePath : Option FsPath)
    (slot : Option Child) : Option Child :=
  match (find_server_dir w resourceDir exePath).fst with
  | some serverDir => (start_next_server w serverDir).fst
  | none => slot

/-! ### Helper lemmas shared by several claim proofs -/

/-- If start_next_server returns a handle, then the entry file existed, the
runtime locator succeeded, and the OS accepted the spawn with the handle's
pid. -/
theorem start_next_server_fst_some (w : World) (sd : FsPath) (c : Child)
    (h : (start_next_server w sd).fst = some c) :
    w.pathExists (sd.join "server.js") ∧ find_node_binary w ≠ none ∧
      w.spawnPid = some c.id := by
  unfold start_next_server at h
  by_cases hjs : w.pathExists (sd.join "server.js")
  · simp only [hjs, not_true_eq_false, if_false] at h
    cases hn : find_node_binary w with
    | none => rw [hn] at h; simp at h
    | some nodePath =>
        rw [hn] at h
        unfold World.spawn at h
        cases hs : w.spawnPid with
        | none => rw [hs] at h; simp at h
        | some pid =>
            rw [hs] at h
            simp at h
            refine ⟨hjs, by simp [hn], ?_⟩
            rw [← h]
  · simp [hjs] at h

/-- When the entry file is missing, start_next_server returns none without
reaching the runtime locator. -/
theorem start_next_server_no_entry (w : World) (sd : FsPath)
    (h : ¬ w.pathExists (sd.join "server.js")) :
    start_next_server w sd = (none, false) := by
  unfold start_next_server
  simp [h]

/-- When the resource-directory candidate misses (or the resource directory
is unavailable), find_server_dir reduces to the executable-relative
fallback. -/
theorem find_server_dir_miss (w : World) (resourceDir exePath : Option FsPath)
    (hres : ∀ rd, resourceDir = some rd → ¬ w.pathExists (rd.join "server")) :
    find_server_dir w resourceDir exePath = exe_fallback w exePath := by
  unfold find_server_dir
  cases resourceDir with
  | none => rfl
  | some rd => simp [hres rd rfl]

/-- When the executable path has two parent components, the fallback probes
exactly the grandparent joined with Resources then server. -/
theorem exe_fallback_eq (w : World) (exe appDir gp : FsPath)
    (hp1 : exe.parent = some appDir) (hp2 : appDir.parent = some gp) :
    exe_fallback w (some exe) =
      (if w.pathExists ((gp.join "Resources").join "server")
        then (some ((gp.join "Resources").join "server"), true)
        else (none, true)) := by
  unfold exe_fallback
  simp [hp1, hp2]

/-! ### Claim theorems -/

/-- C2: for every bundle directory whose server.js entry file does not
exist, start_next_server returns none and the runtime locator is not
invoked (instrumentation flag false). -/
theorem c2_missing_entry_skips_locator (w : World) (serverDir : FsPath)
    (h : ¬ w.pathExists (serverDir.join "server.js")) :
    start_next_server w serverDir = (none, false) :=
  start_next_server_no_entry w serverDir h

/-- A world in which /A/server is a directory holding server.js, the node
binary sits at /usr/local/bin/node, and the OS accepts the spawn as pid
42. -/
def w1 : World :=
  { dirs := [["A", "server"]]
    files := [["A", "server", "server.js"], ["usr", "local", "bin", "node"]]
    whichNode := none
    spawnPid := some 42 }

/-- A world with an empty filesystem in which the spawn would succeed. -/
def w0 : World :=
  { dirs := [], files := [], whichNode := none, spawnPid := some 1 }

theorem c2_missing_entry_skips_locator_witness :
    start_next_server w0 ["A", "server"] = (none, false) :=
  c2_missing_entry_skips_locator w0 ["A", "server"] (by decide)

/-- C1: whenever the bundle directory holds server.js, the runtime locator
returns a path, and the OS accepts the spawn, start_next_server returns a
handle to a child spawned from exactly the runtime path, with the single
argument bundle/server.js, working directory the bundle directory, extra
environment PORT=1234 and HOSTNAME=localhost, both standard streams piped,
and the handle carries the child's pid. -/
theorem c1_spawn_contract (w : World) (serverDir nodePath : FsPath) (pid : Nat)
    (hjs : w.pathExists (serverDir.join "server.js"))
    (hnode : find_node_binary w = some nodePath)
    (hspawn : w.spawnPid = some pid) :
    ∃ child : Child, (start_next_server w serverDir).fst = some child ∧
      child.id = pid ∧
      child.request.program = nodePath ∧
      child.request.args = [serverDir.join "server.js"] ∧
      child.request.cwd = some serverDir ∧
      ("PORT", "1234") ∈ child.request.envAdditions ∧
      ("HOSTNAME", "localhost") ∈ child.request.envAdditions ∧
      child.request.stdoutCfg = StdioCfg.piped ∧
      child.request.stderrCfg = StdioCfg.piped := by
  refine ⟨{ id := pid
            request :=
              { program := nodePath
                args := [serverDir.join "server.js"]
                cwd := some serverDir
                envAdditions := [("PORT", "1234"), ("HOSTNAME", "localhost")]
                stdoutCfg := StdioCfg.piped
                stderrCfg := StdioCfg.piped } }, ?_, rfl, rfl, rfl, rfl,
          by simp, by simp, rfl, rfl⟩
  unfold start_next_server World.spawn
  simp [hjs, hnode, hspawn]

theorem c1_spawn_contract_witness :
    ∃ child : Child, (start_next_server w1 ["A", "server"]).fst = some child ∧
      child.id = 42 ∧
      child.request.program = ["usr", "local", "bin", "node"] ∧
      child.request.args = [FsPath.join ["A", "server"] "server.js"] ∧
      child.request.cwd = some ["A", "server"] ∧
      ("PORT", "1234") ∈ child.request.envAdditions ∧
      ("HOSTNAME", "localhost") ∈ child.request.envAdditions ∧
      child.request.stdoutCfg = StdioCfg.piped ∧
      child.request.stderrCfg = StdioCfg.piped :=
  c1_spawn_contract w1 ["A", "server"] ["usr", "local", "bin", "node"] 42
    (by decide) (by decide) rfl

/-- C3: find_node_binary returns the first existing path in the fixed probe
order /usr/local/bin/node, /opt/homebrew/bin/node, /usr/bin/node, never a
later one when an earlier one exists; when none of the well-known paths
exists, it returns the path resolved by the system lookup command exactly
when that command succeeds and the resolved path exists, and otherwise
returns none. -/
theorem c3_locator_probe_order (w : World) :
    (w.pathExists ["usr", "local", "bin", "node"] →
      find_node_binary w = some ["usr", "local", "bin", "node"]) ∧
    (¬ w.pathExists ["usr", "local", "bin", "node"] →
      w.pathExists ["opt", "homebrew", "bin", "node"] →
      find_node_binary w = some ["opt", "homebrew", "bin", "node"]) ∧
    (¬ w.pathExists ["usr", "local", "bin", "node"] →
      ¬ w.pathExists ["opt", "homebrew", "bin", "node"] →
      w.pathExists ["usr", "bin", "node"] →
      find_node_binary w = some ["usr", "bin", "node"]) ∧
    (∀ p, (∀ q ∈ possible_paths, ¬ w.pathExists q) →
      w.whichNode = some (true, p) → w.pathExists p →
      find_node_binary w = some p) ∧
    ((∀ q ∈ possible_paths, ¬ w.pathExists q) →
      (∀ p, w.whichNode = some (true, p) → ¬ w.pathExists p) →
      find_node_binary w = none) := by
  refine ⟨?_, ?_, ?_, ?_, ?_⟩
  · intro h1
    simp [find_node_binary, probeFirst, possible_paths, h1]
  · intro h1 h2
    simp [find_node_binary, probeFirst, possible_paths, h1, h2]
  · intro h1 h2 h3
    simp [find_node_binary, probeFirst, possible_paths, h1, h2, h3]
  · intro p hall hwhich hp
    have h1 := hall ["usr", "local", "bin", "node"] (by simp [possible_paths])
    have h2 := hall ["opt", "homebrew", "bin", "node"] (by simp [possible_paths])
    have h3 := hall ["usr", "bin", "node"] (by simp [possible_paths])
    simp [find_node_binary, probeFirst, possible_paths, h1, h2, h3, hwhich, hp]
  · intro hall hbad
    have h1 := hall ["usr", "local", "bin", "node"] (by simp [possible_paths])
    have h2 := hall ["opt", "homebrew", "bin", "node"] (by simp [possible_paths])
    have h3 := hall ["usr", "bin", "node"] (by simp [possible_paths])
    simp only [find_node_binary, probeFirst, possible_paths, h1, h2, h3,
      not_false_eq_true, if_neg, if_false]
    cases hwn : w.whichNode with
    | none => simp
    | some sp =>
        cases sp with
        | mk success p =>
            cases success with
            | false => simp
            | true => simp [hbad p hwn]

/-- A world in which /usr/local/bin/node and /opt/homebrew/bin/node both
exist as files. -/
def w2 : World :=
  { dirs := []
    files := [["usr", "local", "bin", "node"], ["opt", "homebrew", "bin", "node"]]
    whichNode := none
    spawnPid := none }

theorem c3_locator_probe_order_witness :
    find_node_binary w2 = some ["usr", "local", "bin", "node"] :=
  (c3_locator_probe_order w2).1 (by decide)

/-- C4: when the resource directory is available and its server child exists
as a directory, find_server_dir returns exactly that path and the
executable-relative fallback is never probed (instrumentation flag
false). -/
theorem c4_resource_dir_wins (w : World) (rd : FsPath) (exePath : Option FsPath)
    (hdir : rd.join "server" ∈ w.dirs) :
    find_server_dir w (some rd) exePath = (some (rd.join "server"), false) := by
  have h : w.pathExists (rd.join "server") := Or.inl hdir
  unfold find_server_dir
  simp [h]

/-- A world in which /R/server is a directory. -/
def w3 : World :=
  { dirs := [["R", "server"]], files := [], whichNode := none, spawnPid := none }

theorem c4_resource_dir_wins_witness :
    find_server_dir w3 (some ["R"]) (some ["E", "MacOS", "app"]) =
      (some (FsPath.join ["R"] "server"), false) :=
  c4_resource_dir_wins w3 ["R"] (some ["E", "MacOS", "app"]) (by decide)

/-- C5: when the resource-directory candidate does not exist but the
executable-relative Contents/Resources/server candidate (grandparent of the
executable, joined with Resources then server) does, find_server_dir returns
the executable-relative candidate; and when neither candidate exists it
returns none. -/
theorem c5_fallback_then_absent (w : World) (resourceDir : Option FsPath) :
    (∀ exe appDir gp : FsPath,
      (∀ rd, resourceDir = some rd → ¬ w.pathExists (rd.join "server")) →
      exe.parent = some appDir → appDir.parent = some gp →
      w.pathExists ((gp.join "Resources").join "server") →
      (find_server_dir w resourceDir (some exe)).fst =
        some ((gp.join "Resources").join "server")) ∧
    (∀ exePath : Option FsPath,
      (∀ rd, resourceDir = some rd → ¬ w.pathExists (rd.join "server")) →
      (∀ exe appDir gp : FsPath, exePath = some exe → exe.parent = some appDir →
        appDir.parent = some gp →
        ¬ w.pathExists ((gp.join "Resources").join "server")) →
      (find_server_dir w resourceDir exePath).fst = none) := by
  constructor
  · intro exe appDir gp hres hp1 hp2 hfb
    rw [find_server_dir_miss w resourceDir (some exe) hres,
        exe_fallback_eq w exe appDir gp hp1 hp2]
    simp [hfb]
  · intro exePath hres hbad
    rw [find_server_dir_miss w resourceDir exePath hres]
    cases exePath with
    | none => rfl
    | some exe =>
        cases hp1 : exe.parent with
        | none => simp [exe_fallback, hp1]
        | some appDir =>
            cases hp2 : appDir.parent with
            | none => simp [exe_fallback, hp1, hp2]
            | some gp =>
                rw [exe_fallback_eq w exe appDir gp hp1 hp2]
                simp [hbad exe appDir gp rfl hp1 hp2]

/-- A world in which only the executable-relative candidate
/Apps/MyApp/Contents/Resources/server exists. -/
def w4 : World :=
  { dirs := [["Apps", "MyApp", "Contents", "Resources", "server"]]
    files := []
    whichNode := none
    spawnPid := none }

theorem c5_fallback_then_absent_witness :
    (find_server_dir w4 none
        (some ["Apps", "MyApp", "Contents", "MacOS", "app"])).fst =
      some ((FsPath.join ["Apps", "MyApp", "Contents"] "Resources").join
        "server") :=
  (c5_fallback_then_absent w4 none).1
    ["Apps", "MyApp", "Contents", "MacOS", "app"]
    ["Apps", "MyApp", "Contents", "MacOS"] ["Apps", "MyApp", "Contents"]
    (fun _ h => Option.noConfusion h) rfl rfl (by decide)

/-- C10: the executable-relative fallback carries no platform condition in
the embedding (the source has no cfg attribute on it): whenever the
resource-directory step misses and the executable path has two parent
components, the probed candidate is exactly the executable's grandparent
joined with Resources then server, it is returned when it exists, and the
fallback probe happens (flag true) in either case. -/
theorem c10_fallback_unconditional (w : World) (resourceDir : Option FsPath)
    (exe appDir gp : FsPath)
    (hres : ∀ rd, resourceDir = some rd → ¬ w.pathExists (rd.join "server"))
    (hp1 : exe.parent = some appDir) (hp2 : appDir.parent = some gp) :
    find_server_dir w resourceDir (some exe) =
      (if w.pathExists ((gp.join "Resources").join "server")
        then (some ((gp.join "Resources").join "server"), true)
        else (none, true)) := by
  rw [find_server_dir_miss w resourceDir (some exe) hres,
      exe_fallback_eq w exe appDir gp hp1 hp2]

theorem c10_fallback_unconditional_witness :
    find_server_dir w0 none (some ["Apps", "MyApp", "Contents", "MacOS", "app"]) =
      (if w0.pathExists ((FsPath.join ["Apps", "MyApp", "Contents"]
          "Resources").join "server")
        then (some ((FsPath.join ["Apps", "MyApp", "Contents"]
          "Resources").join "server"), true)
        else (none, true)) :=
  c10_fallback_unconditional w0 none
    ["Apps", "MyApp", "Contents", "MacOS", "app"]
    ["Apps", "MyApp", "Contents", "MacOS"] ["Apps", "MyApp", "Contents"]
    (fun _ h => Option.noConfusion h) rfl rfl

/-- C6: with a handle present, kill_server issues exactly one kill signal
carrying that handle's pid, issues no wait, and leaves the slot unchanged;
with the slot empty it is a no-op that issues nothing. -/
theorem c6_terminate_behavior :
    (∀ child : Child,
      kill_server (LockResult.acquired (some child)) =
        (LockResult.acquired (some child), [OsAction.kill child.id]) ∧
      ∀ pid, OsAction.wait pid ∉
        (kill_server (LockResult.acquired (some child))).snd) ∧
    kill_server (LockResult.acquired none) = (LockResult.acquired none, []) := by
  refine ⟨fun child => ⟨rfl, fun pid h => ?_⟩, rfl⟩
  simp [kill_server] at h

/-- A concrete child handle with pid 7. -/
def sampleChild : Child :=
  { id := 7
    request :=
      { program := []
        args := []
        cwd := none
        envAdditions := []
        stdoutCfg := StdioCfg.piped
        stderrCfg := StdioCfg.piped } }

theorem c6_terminate_behavior_witness :
    kill_server (LockResult.acquired (some sampleChild)) =
      (LockResult.acquired (some sampleChild), [OsAction.kill 7]) :=
  (c6_terminate_behavior.1 sampleChild).1

/-- C9: when the lock is poisoned, kill_server silently does nothing: no
kill signal is issued, the state is unchanged, and the (total) function
returns normally without any error. -/
theorem c9_poisoned_lock_noop :
    kill_server LockResult.poisoned = (LockResult.poisoned, []) := rfl

/-- C7 counterexample: the builder chain of run registers no teardown
handler, so the set of host calls made on shutdown is empty; in particular
the claim that the host invokes the registry's terminate operation
(kill_server) on application shutdown is false of the code. -/
theorem c7_counterexample_no_terminate_call :
    HostCall.callKillServer ∉ shutdownCalls runBuilder := by decide

/-- C7 amended: run registers no exit or teardown handler at all, so no host
call — in particular no invocation of kill_server — happens on application
shutdown; a running child is not transitioned to Terminated by this code. -/
theorem c7_amended_no_teardown_hook :
    runBuilder.onExitCalls = none ∧ shutdownCalls runBuilder = [] := ⟨rfl, rfl⟩

/-- C8: the registry slot holds at most one handle, and after a startup
attempt that fails at any stage — bundle not found, entry file missing,
runtime not found, or spawn rejected by the OS — the slot (initially empty,
as managed by run) remains empty. -/
theorem c8_slot_absent_on_failure (w : World)
    (resourceDir exePath : Option FsPath) :
    (setup_slot w resourceDir exePath none).toList.length ≤ 1 ∧
    ((find_server_dir w resourceDir exePath).fst = none →
      setup_slot w resourceDir exePath none = none) ∧
    (∀ sd, (find_server_dir w resourceDir exePath).fst = some sd →
      ¬ w.pathExists (sd.join "server.js") →
      setup_slot w resourceDir exePath none = none) ∧
    (find_node_binary w = none → setup_slot w resourceDir exePath none = none) ∧
    (w.spawnPid = none → setup_slot w resourceDir exePath none = none) := by
  refine ⟨?_, ?_, ?_, ?_, ?_⟩
  · cases h : setup_slot w resourceDir exePath none <;> simp
  · intro h
    unfold setup_slot
    rw [h]
  · intro sd hsd hjs
    unfold setup_slot
    rw [hsd]
    show (start_next_server w sd).fst = none
    cases hst : (start_next_server w sd).fst with
    | none => rfl
    | some c => exact absurd (start_next_server_fst_some w sd c hst).1 hjs
  · intro hn
    unfold setup_slot
    cases hfd : (find_server_dir w resourceDir exePath).fst with
    | none => rfl
    | some sd =>
        show (start_next_server w sd).fst = none
        cases hst : (start_next_server w sd).fst with
        | none => rfl
        | some c => exact absurd hn (start_next_server_fst_some w sd c hst).2.1
  · intro hs
    unfold setup_slot
    cases hfd : (find_server_dir w resourceDir exePath).fst with
    | none => rfl
    | some sd =>
        show (start_next_server w sd).fst = none
        cases hst : (start_next_server w sd).fst with
        | none => rfl
        | some c =>
            have hid := (start_next_server_fst_some w sd c hst).2.2
            rw [hs] at hid
            exact Option.noConfusion hid

theorem c8_slot_absent_on_failure_witness :
    setup_slot w0 none none none = none :=
  (c8_slot_absent_on_failure w0 none none).2.1 rfl
